import Mathlib

/-!
Verification of `dbgap/dbgap_study_information.py`.

The file embeds the two components of the source module:

* `StudyIdentifier` — a value holding the three identifier strings built by
  `StudyIdentifier.__init__` from three Python integers using the format
  strings `'phs%06d'`, `'%s.v%d'` and `'%s.p%d'`, plus the `identifiers`
  property which returns the object's attribute dictionary `self.__dict__`.
* `biocaddie_json` — the schema mapper converting a parsed `jsonasobj`
  document plus a list of pht entry strings into the biocaddie document.

Python integers are modelled as `Int`; `%`-formatting of integers is modelled
by `formatD06` (for `%06d`) and `Int.repr` via `toString` (for `%d`).
Attribute access on the dynamically-typed `jsonasobj` document is modelled by
`JVal.get`, returning `none` where Python raises `AttributeError`; the string
concatenation `DBGAP + study.accession` requires a string operand, modelled by
`JVal.asString` (`none` where Python raises `TypeError`).  The mapper is first
embedded statement by statement as `biocaddie_json_run`, threading the full
store (the input document, the pht list, and the `study_entry` object under
construction) so that mutation claims are expressible; `biocaddie_json`
projects out the returned `study_entry`.
-/

/-- Left-pads a string with the character `'0'` to width `w`; when the string
is already at least `w` characters long it is returned unchanged (never
truncated).  This is the padding behaviour of Python's `%0wd` conversion. -/
def padZeros (w : Nat) (s : String) : String :=
  String.mk (List.replicate (w - s.length) '0') ++ s

/-- Python's `'%06d' % n` for an arbitrary integer `n`: non-negative numbers
are zero-padded to 6 characters; for negative numbers the sign counts towards
the width, so the digits are zero-padded to 5 characters after the `'-'`.
Values needing more characters are printed in full (the width is a minimum). -/
def formatD06 (n : Int) : String :=
  if n < 0 then "-" ++ padZeros 5 (Nat.repr n.natAbs)
  else padZeros 6 (Nat.repr n.toNat)

/-- The state of a `StudyIdentifier` object after `__init__`: the three
attributes assigned there, in assignment order `studyid`, `versionedid`,
`fullid`. -/
structure StudyIdentifier where
  studyid : String
  versionedid : String
  fullid : String
deriving DecidableEq

/-- `StudyIdentifier.__init__(id_, v, p)`:
`self.studyid = 'phs%06d' % id_`,
`self.versionedid = '%s.v%d' % (self.studyid, v)`,
`self.fullid = '%s.p%d' % (self.versionedid, p)`. -/
def StudyIdentifier.init (id_ v p : Int) : StudyIdentifier :=
  let studyid := "phs" ++ formatD06 id_
  let versionedid := studyid ++ ".v" ++ toString v
  let fullid := versionedid ++ ".p" ++ toString p
  ⟨studyid, versionedid, fullid⟩

/-- The `identifiers` property: `return self.__dict__`.  After `__init__` the
attribute dictionary holds exactly the three attributes assigned there, in
insertion order. -/
def StudyIdentifier.identifiers (s : StudyIdentifier) : List (String × String) :=
  [("studyid", s.studyid), ("versionedid", s.versionedid), ("fullid", s.fullid)]

/-- Models the Python statement `s.identifiers['studyid'] = x`.  Because the
`identifiers` property returns `self.__dict__` itself (not a copy), item
assignment on the returned mapping rebinds the `studyid` attribute of the
object. -/
def StudyIdentifier.identifiersSetStudyid (s : StudyIdentifier) (x : String) :
    StudyIdentifier :=
  { s with studyid := x }

/-- A parsed JSON-like value as navigated by `jsonasobj`: a string, a list, or
an object with named fields in insertion order. -/
inductive JVal where
  | str : String → JVal
  | list : List JVal → JVal
  | obj : List (String × JVal) → JVal

/-- Attribute access `j.k` on a `jsonasobj` value: field lookup on an object,
`none` (Python: `AttributeError`) when the field is absent or the value is not
an object. -/
def JVal.get (j : JVal) (k : String) : Option JVal :=
  match j with
  | .obj fs => (fs.find? (fun kv => kv.1 == k)).map (fun kv => kv.2)
  | _ => none

/-- The string content of a value; `none` (Python: `TypeError` on `str + x`)
when the value is not a string. -/
def JVal.asString : JVal → Option String
  | .str s => some s
  | _ => none

/-- The field names of an object value, in insertion order. -/
def JVal.keys : JVal → List String
  | .obj fs => fs.map (fun kv => kv.1)
  | _ => []

/-- Chained attribute access `j.k1.k2...`, failing as soon as one access
fails. -/
def pathGet (j : JVal) : List String → Option JVal
  | [] => some j
  | k :: ks => (j.get k).bind (fun j2 => pathGet j2 ks)

/-- Item assignment `d[k] = v` on a `jsonasobj` object / Python dict: rebind
the key if present, append it otherwise (insertion order preserved). -/
def dictSetJ (fs : List (String × JVal)) (k : String) (v : JVal) :
    List (String × JVal) :=
  if fs.any (fun kv => kv.1 == k) then
    fs.map (fun kv => if kv.1 == k then (k, v) else kv)
  else fs ++ [(k, v)]

/-- Modelled from the spec: the constant `DBGAP` imported from
`dbgap.constants`, a module not present in the sources.  The spec describes it
only as "a fixed prefix string used to build fully-qualified identifiers in
the output" and writes it as the placeholder `<DBGAP>` in its scenarios. -/
def DBGAP : String := "<DBGAP>"

/-- The store threaded through `biocaddie_json`: the two inputs and the
`study_entry` object under construction. -/
structure MapperState where
  raw_json : JVal
  pht_entries : List String
  study_entry : List (String × JVal)

/-- Statement-by-statement embedding of `biocaddie_json(raw_json,
pht_entries)`, threading the whole store; returns the final `study_entry`
together with the final state of the two inputs, or `none` when a field
access (or the string concatenation on `accession`) fails. -/
def biocaddie_json_run (raw_json : JVal) (pht_entries : List String) :
    Option (JVal × JVal × List String) :=
  -- study = raw_json.GaPExchange.Studies.Study
  (pathGet raw_json ["GaPExchange", "Studies", "Study"]).bind (fun study =>
  -- study_entry = jsonasobj.JsonObj()
  let st : MapperState := ⟨raw_json, pht_entries, []⟩
  -- study_entry['@type'] = 'Study'
  let st : MapperState :=
    { st with study_entry := dictSetJ st.study_entry "@type" (JVal.str "Study") }
  -- study_entry.identifierInfo = [dict(identifier=DBGAP + study.accession, ...)]
  (study.get "accession").bind (fun accJ =>
  accJ.asString.bind (fun acc =>
  let info : JVal :=
    JVal.list [JVal.obj [("identifier", JVal.str (DBGAP ++ acc)),
                         ("identifierScheme", JVal.str "dbGaP")]]
  let st : MapperState :=
    { st with study_entry := dictSetJ st.study_entry "identifierInfo" info }
  -- study_entry.title = study.Configuration.StudyNameEntrez
  (pathGet study ["Configuration", "StudyNameEntrez"]).bind (fun title =>
  let st : MapperState :=
    { st with study_entry := dictSetJ st.study_entry "title" title }
  -- study_entry.description = study.Configuration.StudyNameReportPage
  (pathGet study ["Configuration", "StudyNameReportPage"]).bind (fun desc =>
  let st : MapperState :=
    { st with study_entry := dictSetJ st.study_entry "description" desc }
  -- study_entry.study_types = study.Configuration.StudyTypes.StudyType
  (pathGet study ["Configuration", "StudyTypes", "StudyType"]).bind (fun stypes =>
  let st : MapperState :=
    { st with study_entry := dictSetJ st.study_entry "study_types" stypes }
  -- study_entry.resultsIn = [DBGAP + pht for pht in pht_entries]
  let results : JVal := JVal.list (st.pht_entries.map (fun pht => JVal.str (DBGAP ++ pht)))
  let st : MapperState :=
    { st with study_entry := dictSetJ st.study_entry "resultsIn" results }
  -- return study_entry
  some (JVal.obj st.study_entry, st.raw_json, st.pht_entries)))))))

/-- `biocaddie_json` as seen by the caller: the returned `study_entry`. -/
def biocaddie_json (raw_json : JVal) (pht_entries : List String) : Option JVal :=
  (biocaddie_json_run raw_json pht_entries).map (fun r => r.1)

/-- The consumed field paths of the raw document, as navigated by
`biocaddie_json`. -/
def consumedFieldPaths : List (List String) :=
  [["GaPExchange", "Studies", "Study", "accession"],
   ["GaPExchange", "Studies", "Study", "Configuration", "StudyNameEntrez"],
   ["GaPExchange", "Studies", "Study", "Configuration", "StudyNameReportPage"],
   ["GaPExchange", "Studies", "Study", "Configuration", "StudyTypes", "StudyType"]]

/-- The `Study` node of the example raw document of the spec's scenario. -/
def exampleStudy : JVal :=
  JVal.obj [("accession", JVal.str "phs000123.v4.p5"),
            ("Configuration", JVal.obj
              [("StudyNameEntrez", JVal.str "Example Study"),
               ("StudyNameReportPage", JVal.str "An example."),
               ("StudyTypes", JVal.obj [("StudyType", JVal.list [JVal.str "Case Set"])])])]

/-- The example raw document of the spec's scenario. -/
def exampleRaw : JVal :=
  JVal.obj [("GaPExchange", JVal.obj [("Studies", JVal.obj [("Study", exampleStudy)])])]

/-- The example pht entry list of the spec's scenario. -/
def examplePht : List String := ["pht000111", "pht000112"]

/-- The biocaddie document produced from `exampleRaw` and `examplePht`. -/
def exampleOut : JVal :=
  JVal.obj [("@type", JVal.str "Study"),
            ("identifierInfo", JVal.list [JVal.obj
               [("identifier", JVal.str "<DBGAP>phs000123.v4.p5"),
                ("identifierScheme", JVal.str "dbGaP")]]),
            ("title", JVal.str "Example Study"),
            ("description", JVal.str "An example."),
            ("study_types", JVal.list [JVal.str "Case Set"]),
            ("resultsIn", JVal.list [JVal.str "<DBGAP>pht000111",
                                     JVal.str "<DBGAP>pht000112"])]

/-- The example raw document with `Configuration.StudyNameEntrez` removed. -/
def missingTitleRaw : JVal :=
  JVal.obj [("GaPExchange", JVal.obj [("Studies", JVal.obj [("Study",
    JVal.obj [("accession", JVal.str "phs000123.v4.p5"),
              ("Configuration", JVal.obj
                [("StudyNameReportPage", JVal.str "An example."),
                 ("StudyTypes", JVal.obj
                   [("StudyType", JVal.list [JVal.str "Case Set"])])])])])])]

/-- A fuel-indexed lower bound: `Nat.toDigitsCore` prints enough digits that
the printed number bounds its input. -/
lemma toDigitsCore_lt_pow (b : Nat) (hb : 2 ≤ b) :
    ∀ fuel n, n < fuel → n < b ^ (Nat.toDigitsCore b fuel n []).length := by
  intro fuel
  induction fuel with
  | zero => intro n hn; exact absurd hn (Nat.not_lt_zero n)
  | succ fuel ih =>
    intro n hn
    have hb0 : 0 < b := by omega
    by_cases h0 : n / b = 0
    · have hnb : n < b := (Nat.div_eq_zero_iff hb0).mp h0
      simp only [Nat.toDigitsCore, h0, if_true]
      simpa using hnb
    · have hnpos : 0 < n := by
        rcases Nat.eq_zero_or_pos n with h | h
        · exact absurd (by simp [h]) h0
        · exact h
      have hdivlt : n / b < n := Nat.div_lt_self hnpos (by omega)
      have hfuel : n / b < fuel := by omega
      have hlen := Nat.toDigitsCore_lens_eq b fuel (n / b) (Nat.digitChar (n % b)) []
      simp only [Nat.toDigitsCore, h0, if_false]
      rw [hlen]
      have hih := ih (n / b) hfuel
      have hmod : n % b < b := Nat.mod_lt n hb0
      have hdm : b * (n / b) + n % b = n := Nat.div_add_mod n b
      have hx : b * (n / b + 1) = b * (n / b) + b := by
        rw [Nat.mul_add, Nat.mul_one]
      calc n < b * (n / b + 1) := by omega
        _ ≤ b * b ^ (Nat.toDigitsCore b fuel (n / b) []).length :=
            Nat.mul_le_mul_left b hih
        _ = b ^ ((Nat.toDigitsCore b fuel (n / b) []).length + 1) := by
            rw [Nat.pow_succ, Nat.mul_comm]

/-- Every natural number is smaller than 10 to the length of its decimal
representation. -/
lemma lt_pow_repr_length (n : Nat) : n < 10 ^ (Nat.repr n).length := by
  have h : (Nat.repr n).length = (Nat.toDigitsCore 10 (n + 1) n []).length := rfl
  rw [h]
  exact toDigitsCore_lt_pow 10 (by omega) (n + 1) n (Nat.lt_succ_self n)

/-- A number at least `10 ^ k` has more than `k` decimal digits. -/
lemma repr_length_ge (n k : Nat) (h : 10 ^ k ≤ n) : k < (Nat.repr n).length := by
  have h2 := lt_pow_repr_length n
  have h3 : 10 ^ k < 10 ^ (Nat.repr n).length := Nat.lt_of_le_of_lt h h2
  exact (Nat.pow_lt_pow_iff_right (by omega)).mp h3

/-- Padding a string that is already long enough does nothing. -/
lemma padZeros_of_long (w : Nat) (s : String) (h : w ≤ s.length) : padZeros w s = s := by
  unfold padZeros
  rw [Nat.sub_eq_zero_of_le h]
  cases s with
  | mk l => rfl

/-- Chained attribute access decomposes along list append. -/
lemma pathGet_append (j : JVal) (as bs : List String) :
    pathGet j (as ++ bs) = (pathGet j as).bind (fun j2 => pathGet j2 bs) := by
  induction as generalizing j with
  | nil => simp [pathGet]
  | cons k ks ih =>
    simp only [List.cons_append, pathGet]
    cases j.get k with
    | none => simp
    | some j2 => simp [ih]

/-- Inversion principle for a successful run of the mapper: every field access
succeeded and the result is the six-field document together with the
untouched inputs. -/
lemma biocaddie_json_run_elim (d : JVal) (p : List String) (r : JVal × JVal × List String)
    (h : biocaddie_json_run d p = some r) :
    ∃ study accJ acc title desc stypes,
      pathGet d ["GaPExchange", "Studies", "Study"] = some study ∧
      study.get "accession" = some accJ ∧
      JVal.asString accJ = some acc ∧
      pathGet study ["Configuration", "StudyNameEntrez"] = some title ∧
      pathGet study ["Configuration", "StudyNameReportPage"] = some desc ∧
      pathGet study ["Configuration", "StudyTypes", "StudyType"] = some stypes ∧
      r = (JVal.obj
        [("@type", JVal.str "Study"),
         ("identifierInfo", JVal.list [JVal.obj
            [("identifier", JVal.str (DBGAP ++ acc)),
             ("identifierScheme", JVal.str "dbGaP")]]),
         ("title", title), ("description", desc), ("study_types", stypes),
         ("resultsIn", JVal.list (p.map (fun pht => JVal.str (DBGAP ++ pht))))], d, p) := by
  simp only [biocaddie_json_run, Option.bind_eq_some] at h
  obtain ⟨study, h1, h⟩ := h
  obtain ⟨accJ, h2, h⟩ := h
  obtain ⟨acc, h3, h⟩ := h
  obtain ⟨title, h4, h⟩ := h
  obtain ⟨desc, h5, h⟩ := h
  obtain ⟨stypes, h6, h⟩ := h
  refine ⟨study, accJ, acc, title, desc, stypes, h1, h2, h3, h4, h5, h6, ?_⟩
  exact (Option.some.inj h).symm.trans rfl

/-- C1: for integers 0 ≤ id < 1,000,000, v ≥ 0, p ≥ 0, the constructor derives
`studyid = "phs" ++ id zero-padded to 6 digits`,
`versionedid = studyid ++ ".v" ++ decimal v` and
`fullid = versionedid ++ ".p" ++ decimal p`. -/
theorem studyIdentifier_format_in_range (id_ v p : Int)
    (h0 : 0 ≤ id_) (h1 : id_ < 1000000) (hv : 0 ≤ v) (hp : 0 ≤ p) :
    (StudyIdentifier.init id_ v p).studyid = "phs" ++ padZeros 6 (Nat.repr id_.toNat) ∧
    (StudyIdentifier.init id_ v p).versionedid =
      (StudyIdentifier.init id_ v p).studyid ++ ".v" ++ toString v ∧
    (StudyIdentifier.init id_ v p).fullid =
      (StudyIdentifier.init id_ v p).versionedid ++ ".p" ++ toString p := by
  refine ⟨?_, rfl, rfl⟩
  simp only [StudyIdentifier.init, formatD06, if_neg (not_lt.mpr h0)]

/-- Witness for C1: the spec's scenario id=123, v=4, p=5. -/
theorem studyIdentifier_format_in_range_witness :
    (StudyIdentifier.init 123 4 5).studyid = "phs000123" ∧
    (StudyIdentifier.init 123 4 5).versionedid = "phs000123.v4" ∧
    (StudyIdentifier.init 123 4 5).fullid = "phs000123.v4.p5" := by
  obtain ⟨h1, h2, h3⟩ :=
    studyIdentifier_format_in_range 123 4 5 (by decide) (by decide) (by decide) (by decide)
  exact ⟨h1.trans (by decide), h2.trans (by decide), h3.trans (by decide)⟩

/-- C7: the `identifiers` mapping of every constructed `StudyIdentifier`
contains exactly the three entries `studyid`, `versionedid` and `fullid`, each
bound to the corresponding derived string, and nothing else. -/
theorem studyIdentifier_identifiers_exact (id_ v p : Int) :
    (StudyIdentifier.init id_ v p).identifiers =
      [("studyid", "phs" ++ formatD06 id_),
       ("versionedid", ("phs" ++ formatD06 id_) ++ ".v" ++ toString v),
       ("fullid", (("phs" ++ formatD06 id_) ++ ".v" ++ toString v) ++ ".p" ++ toString p)] := rfl

/-- Counterexample to C8: the mapping returned by `identifiers` is
`self.__dict__` itself, so assigning to its `studyid` key changes the
object's `studyid` string — it is not a read-only view. -/
theorem studyIdentifier_identifiers_not_readonly_cex :
    ((StudyIdentifier.init 123 4 5).identifiersSetStudyid "mutated").studyid ≠
      (StudyIdentifier.init 123 4 5).studyid := by decide

/-- C8 (amended): the three strings are derived purely from the constructor
inputs and the class defines no mutating method, but the `identifiers`
property returns the live attribute dictionary rather than a read-only view:
assigning to the `studyid` key of the returned mapping rebinds the object's
`studyid` attribute (leaving the other two attributes unchanged). -/
theorem studyIdentifier_identifiers_live_view (id_ v p : Int) (x : String) :
    (StudyIdentifier.init id_ v p).studyid = "phs" ++ formatD06 id_ ∧
    ((StudyIdentifier.init id_ v p).identifiersSetStudyid x).studyid = x ∧
    ((StudyIdentifier.init id_ v p).identifiersSetStudyid x).versionedid =
      (StudyIdentifier.init id_ v p).versionedid ∧
    ((StudyIdentifier.init id_ v p).identifiersSetStudyid x).fullid =
      (StudyIdentifier.init id_ v p).fullid :=
  ⟨rfl, rfl, rfl, rfl⟩

/-- C9: the constructor is total on all integer triples — no validation and no
failure — and out-of-range inputs yield (possibly non-canonical) strings, e.g.
`id = -1` gives `"phs-00001"` and `id = 1234567` gives
`"phs1234567.v8.p9"`. -/
theorem studyIdentifier_init_total (id_ v p : Int) :
    (StudyIdentifier.init id_ v p).studyid = "phs" ++ formatD06 id_ ∧
    (StudyIdentifier.init id_ v p).versionedid =
      ("phs" ++ formatD06 id_) ++ ".v" ++ toString v ∧
    (StudyIdentifier.init id_ v p).fullid =
      (("phs" ++ formatD06 id_) ++ ".v" ++ toString v) ++ ".p" ++ toString p ∧
    (StudyIdentifier.init (-1) 0 0).studyid = "phs-00001" ∧
    (StudyIdentifier.init 1234567 8 9).fullid = "phs1234567.v8.p9" :=
  ⟨rfl, rfl, rfl, by decide, by decide⟩

/-- C10: for id ≥ 1,000,000 the `%06d` conversion widens instead of
truncating: `studyid` is `"phs"` followed by the full decimal representation
of id, and is strictly longer than the canonical 9 characters. -/
theorem studyIdentifier_large_id_widens (id_ v p : Int) (h : 1000000 ≤ id_) :
    (StudyIdentifier.init id_ v p).studyid = "phs" ++ Nat.repr id_.toNat ∧
    9 < (StudyIdentifier.init id_ v p).studyid.length := by
  have h0 : ¬ id_ < 0 := by omega
  have hn : 1000000 ≤ id_.toNat := by omega
  have h6 : (10 : Nat) ^ 6 = 1000000 := by norm_num
  have hlen : 6 < (Nat.repr id_.toNat).length := repr_length_ge id_.toNat 6 (h6 ▸ hn)
  have hfmt : formatD06 id_ = Nat.repr id_.toNat := by
    simp only [formatD06, if_neg h0]
    exact padZeros_of_long 6 _ (by omega)
  constructor
  · show "phs" ++ formatD06 id_ = _
    rw [hfmt]
  · show 9 < ("phs" ++ formatD06 id_).length
    rw [hfmt, String.length_append]
    have h3 : ("phs" : String).length = 3 := rfl
    omega

/-- Witness for C10: at id = 1,000,000 the studyid keeps all seven digits. -/
theorem studyIdentifier_large_id_widens_witness :
    (StudyIdentifier.init 1000000 0 0).studyid = "phs" ++ Nat.repr (1000000 : Int).toNat ∧
    9 < (StudyIdentifier.init 1000000 0 0).studyid.length :=
  studyIdentifier_large_id_widens 1000000 0 0 (by decide)

/-- C2: whenever every consumed field access succeeds (with a string
accession), the mapper produces the document with `@type = "Study"`, the
one-element `identifierInfo` list, `title`, `description`, `study_types`
passed through unmodified, and the prefixed `resultsIn` list. -/
theorem biocaddie_json_maps_fields (d study : JVal) (acc : String)
    (title desc stypes : JVal) (pht : List String)
    (h1 : pathGet d ["GaPExchange", "Studies", "Study"] = some study)
    (h2 : study.get "accession" = some (JVal.str acc))
    (h3 : pathGet study ["Configuration", "StudyNameEntrez"] = some title)
    (h4 : pathGet study ["Configuration", "StudyNameReportPage"] = some desc)
    (h5 : pathGet study ["Configuration", "StudyTypes", "StudyType"] = some stypes) :
    biocaddie_json d pht = some (JVal.obj
      [("@type", JVal.str "Study"),
       ("identifierInfo", JVal.list [JVal.obj
          [("identifier", JVal.str (DBGAP ++ acc)),
           ("identifierScheme", JVal.str "dbGaP")]]),
       ("title", title), ("description", desc), ("study_types", stypes),
       ("resultsIn", JVal.list (pht.map (fun s => JVal.str (DBGAP ++ s))))]) := by
  simp only [biocaddie_json, biocaddie_json_run, h1, h2, h3, h4, h5, JVal.asString,
    Option.some_bind, Option.map_some']
  rfl

/-- Witness for C2: the spec's scenario document produces exactly the spec's
scenario output fields. -/
theorem biocaddie_json_maps_fields_witness :
    biocaddie_json exampleRaw examplePht = some (JVal.obj
      [("@type", JVal.str "Study"),
       ("identifierInfo", JVal.list [JVal.obj
          [("identifier", JVal.str (DBGAP ++ "phs000123.v4.p5")),
           ("identifierScheme", JVal.str "dbGaP")]]),
       ("title", JVal.str "Example Study"),
       ("description", JVal.str "An example."),
       ("study_types", JVal.list [JVal.str "Case Set"]),
       ("resultsIn", JVal.list (examplePht.map (fun s => JVal.str (DBGAP ++ s))))]) :=
  biocaddie_json_maps_fields exampleRaw exampleStudy "phs000123.v4.p5"
    (JVal.str "Example Study") (JVal.str "An example.") (JVal.list [JVal.str "Case Set"])
    examplePht rfl rfl rfl rfl rfl

/-- C3: the `resultsIn` field of every successfully produced document is the
input pht list with the DBGAP prefix prepended to each element in order, and
its length equals the input length. -/
theorem biocaddie_json_resultsIn_order (d : JVal) (pht : List String) (out : JVal)
    (h : biocaddie_json d pht = some out) :
    out.get "resultsIn" = some (JVal.list (pht.map (fun s => JVal.str (DBGAP ++ s)))) ∧
    (pht.map (fun s => JVal.str (DBGAP ++ s))).length = pht.length := by
  simp only [biocaddie_json, Option.map_eq_some'] at h
  obtain ⟨r, hr, hout⟩ := h
  obtain ⟨study, accJ, acc, title, desc, stypes, _, _, _, _, _, _, hr2⟩ :=
    biocaddie_json_run_elim d pht r hr
  subst hr2
  subst hout
  exact ⟨rfl, by simp⟩

/-- Witness for C3: the example output's resultsIn field. -/
theorem biocaddie_json_resultsIn_order_witness :
    exampleOut.get "resultsIn" =
      some (JVal.list (examplePht.map (fun s => JVal.str (DBGAP ++ s)))) ∧
    (examplePht.map (fun s => JVal.str (DBGAP ++ s))).length = examplePht.length :=
  biocaddie_json_resultsIn_order exampleRaw examplePht exampleOut rfl

/-- C4: every successfully produced document has exactly the six keys
`@type`, `identifierInfo`, `title`, `description`, `study_types`,
`resultsIn`, in this order, whatever the inputs were. -/
theorem biocaddie_json_six_keys (d : JVal) (pht : List String) (out : JVal)
    (h : biocaddie_json d pht = some out) :
    out.keys = ["@type", "identifierInfo", "title", "description", "study_types",
                "resultsIn"] := by
  simp only [biocaddie_json, Option.map_eq_some'] at h
  obtain ⟨r, hr, hout⟩ := h
  obtain ⟨study, accJ, acc, title, desc, stypes, _, _, _, _, _, _, hr2⟩ :=
    biocaddie_json_run_elim d pht r hr
  subst hr2
  subst hout
  rfl

/-- Witness for C4: the example output has exactly the six keys. -/
theorem biocaddie_json_six_keys_witness :
    JVal.keys exampleOut =
      ["@type", "identifierInfo", "title", "description", "study_types", "resultsIn"] :=
  biocaddie_json_six_keys exampleRaw examplePht exampleOut rfl

/-- C5: the mapper is deterministic (equal inputs give equal runs) and leaves
both inputs unchanged: a successful run returns the raw document and pht list
exactly as passed in. -/
theorem biocaddie_json_pure (d dd : JVal) (p pp : List String)
    (hd : dd = d) (hp : pp = p) (out d2 : JVal) (p2 : List String)
    (h : biocaddie_json_run d p = some (out, d2, p2)) :
    biocaddie_json_run dd pp = biocaddie_json_run d p ∧ d2 = d ∧ p2 = p := by
  obtain ⟨study, accJ, acc, title, desc, stypes, _, _, _, _, _, _, hr2⟩ :=
    biocaddie_json_run_elim d p (out, d2, p2) h
  rw [Prod.mk.injEq, Prod.mk.injEq] at hr2
  exact ⟨by rw [hd, hp], hr2.2.1, hr2.2.2⟩

/-- Witness for C5: the example run returns its inputs untouched. -/
theorem biocaddie_json_pure_witness :
    biocaddie_json_run exampleRaw examplePht = biocaddie_json_run exampleRaw examplePht ∧
    exampleRaw = exampleRaw ∧ examplePht = examplePht :=
  biocaddie_json_pure exampleRaw exampleRaw examplePht examplePht rfl rfl
    exampleOut exampleRaw examplePht rfl

/-- C6: when any consumed field path of the raw document is absent, the mapper
fails with the field-access error and returns no document at all. -/
theorem biocaddie_json_missing_field (d : JVal) (p : List String) (path : List String)
    (hmem : path ∈ consumedFieldPaths) (habs : pathGet d path = none) :
    biocaddie_json d p = none := by
  simp only [consumedFieldPaths, List.mem_cons, List.not_mem_nil, or_false] at hmem
  rcases hmem with rfl | rfl | rfl | rfl
  · rw [show (["GaPExchange", "Studies", "Study", "accession"] : List String) =
        ["GaPExchange", "Studies", "Study"] ++ ["accession"] from rfl, pathGet_append] at habs
    cases hs : pathGet d ["GaPExchange", "Studies", "Study"] with
    | none => simp [biocaddie_json, biocaddie_json_run, hs]
    | some study =>
      rw [hs, Option.some_bind] at habs
      cases hacc : study.get "accession" with
      | none => simp [biocaddie_json, biocaddie_json_run, hs, hacc]
      | some a =>
        simp [pathGet, hacc] at habs
  · rw [show (["GaPExchange", "Studies", "Study", "Configuration", "StudyNameEntrez"] :
        List String) = ["GaPExchange", "Studies", "Study"] ++ ["Configuration", "StudyNameEntrez"]
        from rfl, pathGet_append] at habs
    cases hs : pathGet d ["GaPExchange", "Studies", "Study"] with
    | none => simp [biocaddie_json, biocaddie_json_run, hs]
    | some study =>
      rw [hs, Option.some_bind] at habs
      cases hacc : study.get "accession" with
      | none => simp [biocaddie_json, biocaddie_json_run, hs, hacc]
      | some accJ =>
        cases hstr : JVal.asString accJ with
        | none => simp [biocaddie_json, biocaddie_json_run, hs, hacc, hstr]
        | some acc => simp [biocaddie_json, biocaddie_json_run, hs, hacc, hstr, habs]
  · rw [show (["GaPExchange", "Studies", "Study", "Configuration", "StudyNameReportPage"] :
        List String) = ["GaPExchange", "Studies", "Study"] ++
        ["Configuration", "StudyNameReportPage"] from rfl, pathGet_append] at habs
    cases hs : pathGet d ["GaPExchange", "Studies", "Study"] with
    | none => simp [biocaddie_json, biocaddie_json_run, hs]
    | some study =>
      rw [hs, Option.some_bind] at habs
      cases hacc : study.get "accession" with
      | none => simp [biocaddie_json, biocaddie_json_run, hs, hacc]
      | some accJ =>
        cases hstr : JVal.asString accJ with
        | none => simp [biocaddie_json, biocaddie_json_run, hs, hacc, hstr]
        | some acc =>
          cases htl : pathGet study ["Configuration", "StudyNameEntrez"] with
          | none => simp [biocaddie_json, biocaddie_json_run, hs, hacc, hstr, htl]
          | some title =>
            simp [biocaddie_json, biocaddie_json_run, hs, hacc, hstr, htl, habs]
  · rw [show (["GaPExchange", "Studies", "Study", "Configuration", "StudyTypes", "StudyType"] :
        List String) = ["GaPExchange", "Studies", "Study"] ++
        ["Configuration", "StudyTypes", "StudyType"] from rfl, pathGet_append] at habs
    cases hs : pathGet d ["GaPExchange", "Studies", "Study"] with
    | none => simp [biocaddie_json, biocaddie_json_run, hs]
    | some study =>
      rw [hs, Option.some_bind] at habs
      cases hacc : study.get "accession" with
      | none => simp [biocaddie_json, biocaddie_json_run, hs, hacc]
      | some accJ =>
        cases hstr : JVal.asString accJ with
        | none => simp [biocaddie_json, biocaddie_json_run, hs, hacc, hstr]
        | some acc =>
          cases htl : pathGet study ["Configuration", "StudyNameEntrez"] with
          | none => simp [biocaddie_json, biocaddie_json_run, hs, hacc, hstr, htl]
          | some title =>
            cases hds : pathGet study ["Configuration", "StudyNameReportPage"] with
            | none => simp [biocaddie_json, biocaddie_json_run, hs, hacc, hstr, htl, hds]
            | some desc =>
              simp [biocaddie_json, biocaddie_json_run, hs, hacc, hstr, htl, hds, habs]

/-- Witness for C6: the example document with `Configuration.StudyNameEntrez`
removed makes the mapper fail. -/
theorem biocaddie_json_missing_field_witness :
    biocaddie_json missingTitleRaw examplePht = none :=
  biocaddie_json_missing_field missingTitleRaw examplePht
    ["GaPExchange", "Studies", "Study", "Configuration", "StudyNameEntrez"]
    (by decide) rfl
